import Mathlib

/-!
Verification of the multi-perspective evaluation and synthesis engine
(`agents/evaluation.py`, `helpers/agent_helpers.py`).

The Python code is shallowly embedded: dictionaries become association
lists over `String`, Python floats become `ℚ` (the arithmetic performed by
the engine — sums, divisions, `round(x, 2)` — is exact on the values in
range, and no stated property depends on binary floating-point artifacts;
`round` is modelled as round-half-up, no stated property depends on tie
behaviour), raising code becomes `Except String`, and language-model /
agent collaborators become opaque functions supplied as parameters.
-/

/-! ## Python string primitives: `str.lower` and the `in` substring test -/

/-- Model of Python `str.lower()` (ASCII case folding, which covers every
string the engine matches against). -/
def lowerStr (s : String) : String := ⟨s.data.map Char.toLower⟩

/-- Does the character list start with `pat`? Helper for the substring test. -/
def startsWithChars : List Char → List Char → Bool
  | [], _ => true
  | _ :: _, [] => false
  | a :: as, b :: bs => a == b && startsWithChars as bs

/-- Does the character list contain `pat` as a contiguous run? -/
def hasSubChars (pat : List Char) : List Char → Bool
  | [] => pat.isEmpty
  | b :: rest => startsWithChars pat (b :: rest) || hasSubChars pat rest

/-- Model of Python `pat in s` for strings: substring containment. -/
def strContains (s pat : String) : Bool := hasSubChars pat.data s.data

/-! ## Python `round(x, 2)` on the rational model -/

/-- Model of Python `round(x, 2)`: rounding to 2 decimal places (half-up;
no property proved below depends on the tie-breaking direction).
`Rat.floor` is used rather than `⌊·⌋` so the definition stays a plain
computable function. -/
def round2 (q : ℚ) : ℚ := ((q * 100 + 1/2).floor : ℤ) / 100

theorem ratFloor_eq_intFloor (q : ℚ) : q.floor = ⌊q⌋ :=
  (Rat.floor_def' q).trans Rat.floor_def.symm

theorem round2_mono {a b : ℚ} (h : a ≤ b) : round2 a ≤ round2 b := by
  unfold round2
  rw [ratFloor_eq_intFloor, ratFloor_eq_intFloor]
  have hf : (⌊a * 100 + 1/2⌋ : ℤ) ≤ ⌊b * 100 + 1/2⌋ := Int.floor_mono (by linarith)
  have h2 : ((⌊a * 100 + 1/2⌋ : ℤ) : ℚ) ≤ ((⌊b * 100 + 1/2⌋ : ℤ) : ℚ) := by exact_mod_cast hf
  linarith

theorem round2_eq_of_bounds {q : ℚ} {z : ℤ} (h1 : (z : ℚ) ≤ q * 100 + 1/2)
    (h2 : q * 100 + 1/2 < z + 1) : round2 q = (z : ℚ) / 100 := by
  unfold round2
  rw [ratFloor_eq_intFloor, Int.floor_eq_iff.mpr ⟨h1, by exact_mod_cast h2⟩]

theorem round2_zero : round2 0 = 0 := by
  have h := round2_eq_of_bounds (q := 0) (z := 0) (by norm_num) (by norm_num)
  simpa using h

theorem round2_one : round2 1 = 1 := by
  have h := round2_eq_of_bounds (q := 1) (z := 100) (by norm_num) (by norm_num)
  simpa using h

theorem round2_nonneg {q : ℚ} (h : 0 ≤ q) : 0 ≤ round2 q :=
  round2_zero ▸ round2_mono h

theorem round2_le_one {q : ℚ} (h : q ≤ 1) : round2 q ≤ 1 :=
  round2_one ▸ round2_mono h

/-! ## Python dictionaries as association lists -/

/-- Python `d[k]` / `k in d`: first binding of `k`, as an `Option`. -/
def dlookup {α : Type} : List (String × α) → String → Option α
  | [], _ => none
  | (k, v) :: rest, n => if k = n then some v else dlookup rest n

/-- Python `d[k] = v`: replace the existing binding in place, else append
(insertion-ordered dictionary semantics). -/
def dinsert {α : Type} (k : String) (v : α) : List (String × α) → List (String × α)
  | [] => [(k, v)]
  | (k', v') :: rest => if k' = k then (k, v) :: rest else (k', v') :: dinsert k v rest

/-- Python `list(d.keys())`. -/
def dkeys {α : Type} (d : List (String × α)) : List String := d.map Prod.fst

theorem dlookup_dinsert_self {α : Type} (k : String) (v : α) :
    ∀ d : List (String × α), dlookup (dinsert k v d) k = some v := by
  intro d
  induction d with
  | nil => simp [dinsert, dlookup]
  | cons hd tl ih =>
    obtain ⟨k', v'⟩ := hd
    by_cases h : k' = k
    · simp [dinsert, h, dlookup]
    · simp [dinsert, h, dlookup, ih]

theorem dlookup_dinsert_ne {α : Type} (k n : String) (v : α) (hne : k ≠ n) :
    ∀ d : List (String × α), dlookup (dinsert k v d) n = dlookup d n := by
  intro d
  induction d with
  | nil => simp [dinsert, dlookup, hne]
  | cons hd tl ih =>
    obtain ⟨k', v'⟩ := hd
    by_cases h : k' = k
    · subst h
      simp [dinsert, dlookup, hne]
    · simp [dinsert, h, dlookup, ih]

theorem mem_dkeys_dinsert {α : Type} (k n : String) (v : α) :
    ∀ d : List (String × α), n ∈ dkeys (dinsert k v d) ↔ n = k ∨ n ∈ dkeys d := by
  intro d
  induction d with
  | nil => simp [dinsert, dkeys]
  | cons hd tl ih =>
    obtain ⟨k', v'⟩ := hd
    by_cases h : k' = k
    · subst h
      simp [dinsert, dkeys]
    · simp only [dinsert, if_neg h, dkeys, List.map_cons, List.mem_cons] at ih ⊢
      rw [ih]
      tauto

theorem nodup_dkeys_dinsert {α : Type} (k : String) (v : α) :
    ∀ d : List (String × α), (dkeys d).Nodup → (dkeys (dinsert k v d)).Nodup := by
  intro d
  induction d with
  | nil => simp [dinsert, dkeys]
  | cons hd tl ih =>
    obtain ⟨k', v'⟩ := hd
    by_cases h : k' = k
    · subst h
      simp [dinsert, dkeys]
    · intro hnd
      simp only [dkeys, List.map_cons, List.nodup_cons] at hnd
      simp only [dinsert, if_neg h, dkeys, List.map_cons, List.nodup_cons]
      refine ⟨fun hmem => ?_, ih hnd.2⟩
      rcases (mem_dkeys_dinsert k k' v tl).mp hmem with h' | h'
      · exact h h'
      · exact hnd.1 h'

theorem dlookup_isSome_iff_mem_dkeys {α : Type} :
    ∀ (d : List (String × α)) (n : String), (dlookup d n).isSome ↔ n ∈ dkeys d := by
  intro d
  induction d with
  | nil => simp [dlookup, dkeys]
  | cons hd tl ih =>
    obtain ⟨k', v'⟩ := hd
    intro n
    by_cases h : k' = n
    · simp [dlookup, h, dkeys]
    · simp [dlookup, h, dkeys, ih n, Ne.symm h]

/-! ## Data model

`models.models` is not under `src/`; `Statement` and `StatementType` are
modelled from the spec (§3 and the verdict taxonomy), with exactly the
member names the source `evaluation.py` references. -/

/-- Modelled from the spec: `models.models.StatementType` (module not under
src/) — the fixed verdict enumeration referenced by `_determine_verdict`. -/
inductive StatementType where
  | TRUTH
  | SELECTIVE_TRUTH
  | LIE
  | UNVERIFIABLE
deriving DecidableEq, Repr

/-- Modelled from the spec: `models.models.Statement` (module not under
src/) — the text under evaluation plus speaker identity, the two fields
`evaluation.py` reads (`statement.text`, `statement.speaker.name`). -/
structure Statement where
  text : String
  speaker : String
deriving DecidableEq, Repr

/-- One entry of the orchestrator's `perspectives` dictionary. The source
stores loosely-shaped Python dicts; this records the fields the engine
reads (`agent`, `error`, `analysis`, `confidence`), each optional exactly
as dictionary keys are. Extra keys an agent may add are never read by the
engine and are not modelled. -/
structure Perspective where
  agent : Option String
  error : Option String
  analysis : Option String
  confidence : Option ℚ
deriving DecidableEq, Repr

/-- The orchestrator's `perspectives` mapping: evaluator name → record. -/
def PerspectivesDict : Type := List (String × Perspective)

/-! ## `MultiPerspectiveEvaluator`: consensus, confidence, verdict, actions -/

/-- Sentiment derivation inside `_calculate_consensus` (evaluation.py
lines 160–166): `analysis = p.get("analysis", "").lower()`, then
`"true" or "accurate"` → +1, elif `"false" or "incorrect"` → −1, else 0. -/
def sentimentOf (analysis : String) : Int :=
  let a := lowerStr analysis
  if strContains a "true" || strContains a "accurate" then 1
  else if strContains a "false" || strContains a "incorrect" then -1
  else 0

/-- The `sentiments` list built by `_calculate_consensus`: one sentiment per
non-error perspective, in dictionary (insertion) order. -/
def sentimentsOf (ps : PerspectivesDict) : List Int :=
  (ps.map Prod.snd).filterMap fun p =>
    if p.error = none then some (sentimentOf (p.analysis.getD "")) else none

/-- Population variance as computed in `_calculate_consensus`:
`mean = sum/len`, `variance = sum((s - mean)^2)/len`. -/
def varianceOf (l : List Int) : ℚ :=
  let mean : ℚ := ((l.sum : ℤ) : ℚ) / l.length
  ((l.map fun s => ((s : ℤ) - mean) ^ 2).sum) / l.length

/-- `MultiPerspectiveEvaluator._calculate_consensus` (evaluation.py
lines 151–180). Note the first guard is on the *total* number of entries
of the mapping (`len(perspectives) < 2`), error entries included. -/
def calculate_consensus (ps : PerspectivesDict) : ℚ :=
  if ps.length < 2 then 1
  else if (sentimentsOf ps).isEmpty then 1/2
  else round2 (1 - min (varianceOf (sentimentsOf ps) / 4) 1)

/-- The `confidences` list built by `_calculate_synthesis_confidence`:
`p.get("confidence", 0.5)` for each non-error perspective. -/
def confidencesOf (ps : PerspectivesDict) : List ℚ :=
  (ps.map Prod.snd).filterMap fun p =>
    if p.error = none then some (p.confidence.getD (1/2)) else none

/-- The consensus weighting applied to the average agent confidence:
`avg_confidence * (0.5 + 0.5 * consensus)`, rounded to 2 decimals. -/
def weightedConfidence (avg c : ℚ) : ℚ := round2 (avg * (1/2 + 1/2 * c))

/-- `MultiPerspectiveEvaluator._calculate_synthesis_confidence`
(evaluation.py lines 182–197). With no non-error perspectives the function
returns 0.5 directly, before any consensus weighting. -/
def calculate_synthesis_confidence (ps : PerspectivesDict) : ℚ :=
  if (confidencesOf ps).isEmpty then 1/2
  else weightedConfidence ((confidencesOf ps).sum / (confidencesOf ps).length)
    (calculate_consensus ps)

/-- `MultiPerspectiveEvaluator._determine_verdict` (evaluation.py
lines 138–149). -/
def determine_verdict (synthesis : String) : StatementType :=
  let synthesis_lower := lowerStr synthesis
  if strContains synthesis_lower "mostly true" || strContains synthesis_lower "largely accurate" then
    StatementType.TRUTH
  else if strContains synthesis_lower "selective" || strContains synthesis_lower "cherry-pick" then
    StatementType.SELECTIVE_TRUTH
  else if strContains synthesis_lower "false" || strContains synthesis_lower "incorrect" then
    StatementType.LIE
  else
    StatementType.UNVERIFIABLE

/-- The spec's reading of verdict determination (§4.3 step 2): a priority
list of (trigger phrases, verdict) rules scanned in order, first match
wins, `UNVERIFIABLE` when none match. Stated from the spec's words to be
compared with `determine_verdict`. -/
def verdictRules : List (List String × StatementType) :=
  [(["mostly true", "largely accurate"], StatementType.TRUTH),
   (["selective", "cherry-pick"], StatementType.SELECTIVE_TRUTH),
   (["false", "incorrect"], StatementType.LIE)]

/-- First rule of the table whose trigger phrase occurs (case-insensitively)
in the text; `UNVERIFIABLE` when none does. -/
def firstMatchingRule (s : String) : List (List String × StatementType) → StatementType
  | [] => StatementType.UNVERIFIABLE
  | (phrases, v) :: rest =>
    if phrases.any (fun ph => strContains (lowerStr s) ph) then v
    else firstMatchingRule s rest

/-- Spec-side verdict classifier: scan `verdictRules` in priority order. -/
def verdictByRules (s : String) : StatementType := firstMatchingRule s verdictRules

/-- `MultiPerspectiveEvaluator._extract_disagreements` (evaluation.py
lines 199–217). -/
def extract_disagreements (ps : PerspectivesDict) : List String :=
  let d1 : List String :=
    match dlookup ps "fact_checker", dlookup ps "conspirator" with
    | some f, some c =>
      if strContains (lowerStr (f.analysis.getD "")) "accurate" &&
         strContains (lowerStr (c.analysis.getD "")) "manipulat" then
        ["Fact-checker finds claim accurate, but Conspirator sees manipulation"]
      else []
    | _, _ => []
  let d2 : List String :=
    match dlookup ps "nerd", dlookup ps "simple_joe" with
    | some n, some s =>
      if strContains (lowerStr (n.analysis.getD "")) "statistical" &&
         strContains (lowerStr (s.analysis.getD "")) "doesn\x27t make sense" then
        ["Data supports claim but common sense interpretation differs"]
      else []
    | _, _ => []
  d1 ++ d2

/-- The candidate action strings one perspective contributes in
`_generate_action_items` (evaluation.py lines 223–236). -/
def actionCandidates (agent_name : String) (p : Perspective) : List String :=
  if p.error = none then
    let al := lowerStr (p.analysis.getD "")
    (if strContains al "verify" then ["Verify claims as suggested by " ++ agent_name] else []) ++
    (if strContains al "context" && strContains al "missing" then
      ["Obtain missing context for complete evaluation"] else []) ++
    (if strContains al "source" && strContains al "primary" then
      ["Access primary sources for verification"] else [])
  else []

/-- `MultiPerspectiveEvaluator._generate_action_items` (evaluation.py
lines 219–238): collect candidates, `list(set(actions))[:3]`. The set
round-trip is modelled by `List.dedup` (Python's set order is unspecified;
no property below depends on it). -/
def generate_action_items (statement : Statement) (ps : PerspectivesDict) : List String :=
  ((ps.map fun kv => actionCandidates kv.1 kv.2).flatten.dedup).take 3

/-! ## Orchestrator: `evaluate_statement` and `_synthesize_perspectives`

The four concrete evaluators live in `agents/factcheck/*`, which is not
under `src/`; per the spec (§4.1) an evaluator is an opaque collaborator
whose `evaluate(statement, context)` either returns a perspective record
or raises. The language-model gateway is likewise opaque: prompt in,
response text out, or an error (§6). Both are therefore parameters of the
orchestrator model, quantified over in every theorem. -/

/-- An evaluator's `evaluate(statement, context)`: a perspective record or
a raised exception carrying its message. -/
def AgentFn : Type := Statement → String → Except String Perspective

/-- The orchestrator state: the registered agents dictionary (name →
evaluator, insertion-ordered as in `__init__`) and the synthesis
language-model gateway (`self.synthesis_llm.invoke`, returning the
response `content` or raising). -/
structure MultiPerspectiveEvaluator where
  agents : List (String × AgentFn)
  synthesis_llm : String → Except String String

/-- The error envelope stored by `evaluate_statement`'s `except` branch
(evaluation.py lines 88–92): `{"agent": name, "error": str(e),
"analysis": "Error during analysis"}`. -/
def errorRecord (agent_name msg : String) : Perspective :=
  { agent := some agent_name
    error := some msg
    analysis := some "Error during analysis"
    confidence := none }

/-- Outcome of one loop iteration of `evaluate_statement` for a requested
name: skipped when unregistered, else the evaluator's perspective, the
raised exception converted to `errorRecord`. -/
def agentResult (M : MultiPerspectiveEvaluator) (stmt : Statement) (ctx : String)
    (agent_name : String) : Option Perspective :=
  match dlookup M.agents agent_name with
  | none => none
  | some f =>
    match f stmt ctx with
    | Except.ok p => some p
    | Except.error e => some (errorRecord agent_name e)

/-- The gathering loop of `evaluate_statement` (evaluation.py lines 81–92):
`for agent_name in agents_to_use: if agent_name in self.agents:
try/except; perspectives[agent_name] = ...`. -/
def gatherPerspectives (M : MultiPerspectiveEvaluator) (stmt : Statement) (ctx : String) :
    List String → PerspectivesDict → PerspectivesDict
  | [], acc => acc
  | n :: rest, acc =>
    gatherPerspectives M stmt ctx rest
      (match agentResult M stmt ctx n with
       | none => acc
       | some p => dinsert n p acc)

/-- Rendering of one perspective record inside the synthesis prompt's
`json.dumps(perspectives, indent=2)`. The exact JSON text never influences
any verified property (the gateway is quantified over); present fields are
rendered in order. -/
def perspectiveDump (p : Perspective) : String :=
  (match p.agent with | some a => "\"agent\": \"" ++ a ++ "\", " | none => "") ++
  (match p.error with | some e => "\"error\": \"" ++ e ++ "\", " | none => "") ++
  (match p.analysis with | some a => "\"analysis\": \"" ++ a ++ "\", " | none => "") ++
  (match p.confidence with | some _ => "\"confidence\": <number>" | none => "")

/-- Serialized dump of the whole perspectives mapping. -/
def perspectivesDump (ps : PerspectivesDict) : String :=
  "\x7b" ++ String.intercalate ", "
    (ps.map fun kv => "\"" ++ kv.1 ++ "\": \x7b" ++ perspectiveDump kv.2 ++ "\x7d") ++ "\x7d"

/-- The synthesis prompt built by `_synthesize_perspectives` (evaluation.py
lines 108–123): the statement text, the serialized perspectives, and the
fixed instruction list. -/
def synthesisPrompt (stmt : Statement) (ps : PerspectivesDict) : String :=
  "\n        Statement: \"" ++ stmt.text ++ "\"\n        \n        " ++
  "Multiple agents have analyzed this statement:\n        \n        " ++
  perspectivesDump ps ++
  "\n        \n        Synthesize these perspectives:\n        " ++
  "1. What do they agree on?\n        2. Where do they diverge?\n        " ++
  "3. What\x27s the most likely truth?\n         4. What context is crucial?\n        " ++
  "5. Overall assessment?\n        \n        Provide a balanced synthesis.\n        "

/-- The synthesis object assembled from the gateway response (evaluation.py
lines 130–136). -/
structure SynthesisResult where
  summary : String
  verdict : StatementType
  confidence : ℚ
  key_disagreements : List String
  action_items : List String
deriving DecidableEq, Repr

/-- `MultiPerspectiveEvaluator._synthesize_perspectives` (evaluation.py
lines 104–136): one gateway call, not guarded by any try/except — a raised
gateway error escapes. -/
def synthesize_perspectives (M : MultiPerspectiveEvaluator) (stmt : Statement)
    (ps : PerspectivesDict) : Except String SynthesisResult :=
  match M.synthesis_llm (synthesisPrompt stmt ps) with
  | Except.error e => Except.error e
  | Except.ok content =>
    Except.ok
      { summary := content
        verdict := determine_verdict content
        confidence := calculate_synthesis_confidence ps
        key_disagreements := extract_disagreements ps
        action_items := generate_action_items stmt ps }

/-- The report returned by `evaluate_statement` (evaluation.py
lines 97–102). -/
structure EvaluationReport where
  statement : String
  perspectives : PerspectivesDict
  synthesis : SynthesisResult
  consensus_level : ℚ

/-- `MultiPerspectiveEvaluator.evaluate_statement` (evaluation.py
lines 71–102). `agents_to_use = None` defaults to all registered names. -/
def evaluate_statement (M : MultiPerspectiveEvaluator) (stmt : Statement) (ctx : String)
    (agents_to_use : Option (List String)) : Except String EvaluationReport :=
  let names := agents_to_use.getD (dkeys M.agents)
  let ps := gatherPerspectives M stmt ctx names []
  match synthesize_perspectives M stmt ps with
  | Except.error e => Except.error e
  | Except.ok syn =>
    Except.ok
      { statement := stmt.text
        perspectives := ps
        synthesis := syn
        consensus_level := calculate_consensus ps }

/-! ## Safe analysis construction (`helpers/agent_helpers.py`)

`schemas.fc_schemas` is not under `src/`; `AgentAnalysis` and its verdict
enumeration are modelled from the spec (§3, §4.4): every field always
present and type-correct, `confidence_score` clamped to `[0, 1]`, verdict
drawn from the fixed enumeration, and a constructor that rejects
(raises on) ill-typed field values — the rejection is what
`create_safe_agent_analysis`'s `except` arm catches. Arbitrary Python
payloads handed to the helper are modelled by the `PyVal` type. -/

/-- An arbitrary loosely-typed Python value, as passed to
`create_safe_agent_analysis` (`None`, numbers, strings, lists, dicts). -/
inductive PyVal where
  | none
  | bool (b : Bool)
  | int (n : Int)
  | float (q : ℚ)
  | str (s : String)
  | list (xs : List PyVal)
  | dict (kvs : List (String × PyVal))

/-- Python `data.get(k, default)` on a `PyVal` dictionary body. -/
def pyGet (kvs : List (String × PyVal)) (k : String) (default : PyVal) : PyVal :=
  (dlookup kvs k).getD default

/-- Numeric value of a digit-only character list (helper for `float(str)`). -/
def natOfDigits (l : List Char) : Nat :=
  l.foldl (fun n c => n * 10 + (c.toNat - 48)) 0

/-- Model of Python `float` applied to a string: optional sign, digits,
optional decimal point and fraction digits. Exotic accepted spellings
(exponents, `inf`/`nan`, underscores, surrounding whitespace) are not
modelled; no verified property depends on which strings parse, only on
parse failures being caught. -/
def parseDecimal (s : String) : Option ℚ :=
  let cs := s.data
  let sgn : ℚ := match cs with
    | '-' :: _ => -1
    | _ => 1
  let rest : List Char := match cs with
    | '-' :: r => r
    | '+' :: r => r
    | r => r
  let ip := rest.takeWhile Char.isDigit
  let after := rest.dropWhile Char.isDigit
  match after with
  | [] =>
    if ip.isEmpty then Option.none
    else some (sgn * (natOfDigits ip : ℚ))
  | '.' :: fp =>
    if fp.all Char.isDigit && !(ip.isEmpty && fp.isEmpty) then
      some (sgn * ((natOfDigits (ip ++ fp) : ℚ) / (10 ^ fp.length)))
    else Option.none
  | _ => Option.none

/-- Model of Python `float(...)` coercion: numbers and booleans convert,
strings are parsed, anything else raises `TypeError`. -/
def pyFloat : PyVal → Except String ℚ
  | PyVal.float q => Except.ok q
  | PyVal.int n => Except.ok (n : ℚ)
  | PyVal.bool b => Except.ok (if b then 1 else 0)
  | PyVal.str s =>
    match parseDecimal s with
    | some q => Except.ok q
    | Option.none => Except.error ("could not convert string to float: " ++ s)
  | _ => Except.error "float() argument must be a string or a real number"

/-- Modelled from the spec: the verdict enumeration of
`schemas.fc_schemas` (not under src/) — "a fixed enumeration
{TRUE, MISLEADING/SELECTIVE_TRUTH, FALSE/LIE, UNVERIFIABLE}" (§3). -/
inductive Verdict where
  | TRUE
  | MISLEADING
  | FALSE
  | UNVERIFIABLE
deriving DecidableEq, Repr

/-- Modelled from the spec: `schemas.fc_schemas.AgentAnalysis` (not under
src/) — agent name, perspective label, analysis text, confidence score,
key findings, supporting evidence, verdict, reasoning (§3).
Supporting-evidence records are modelled as strings; their inner shape is
never consulted by the code under src/. -/
structure AgentAnalysis where
  agent_name : String
  perspective : String
  analysis : String
  confidence_score : ℚ
  key_findings : List String
  supporting_evidence : List String
  verdict : Verdict
  reasoning : String

/-- Clamp into `[0, 1]`, as the spec's AgentAnalysis invariant demands of
`confidence_score` (§3). -/
def clamp01 (q : ℚ) : ℚ := max 0 (min 1 q)

/-- Field validation: the value must be a string. -/
def asStr : PyVal → Except String String
  | PyVal.str s => Except.ok s
  | _ => Except.error "value is not a valid string"

/-- Field validation: the value must be a list of strings. -/
def asStrList : PyVal → Except String (List String)
  | PyVal.list xs =>
    xs.foldr
      (fun x acc =>
        match asStr x, acc with
        | Except.ok s, Except.ok l => Except.ok (s :: l)
        | Except.error e, _ => Except.error e
        | _, Except.error e => Except.error e)
      (Except.ok [])
  | _ => Except.error "value is not a valid list"

/-- Verdict values accepted by the enumeration, by name or alias. -/
def parseVerdict : PyVal → Except String Verdict
  | PyVal.str "TRUE" => Except.ok Verdict.TRUE
  | PyVal.str "MISLEADING" => Except.ok Verdict.MISLEADING
  | PyVal.str "SELECTIVE_TRUTH" => Except.ok Verdict.MISLEADING
  | PyVal.str "FALSE" => Except.ok Verdict.FALSE
  | PyVal.str "LIE" => Except.ok Verdict.FALSE
  | PyVal.str "UNVERIFIABLE" => Except.ok Verdict.UNVERIFIABLE
  | _ => Except.error "value is not a valid verdict"

/-- Modelled from the spec: the `AgentAnalysis(...)` constructor call of
`schemas.fc_schemas` (not under src/) — validates field types, clamps the
confidence score into `[0, 1]`, and raises (returns an error) on any
ill-typed field, which the caller's `except` arm then catches (§4.4). -/
def mkAgentAnalysis (agent_name perspective analysis : PyVal) (confidence : ℚ)
    (key_findings supporting_evidence verdict reasoning : PyVal) :
    Except String AgentAnalysis :=
  match asStr agent_name, asStr perspective, asStr analysis, asStrList key_findings,
        asStrList supporting_evidence, parseVerdict verdict, asStr reasoning with
  | Except.ok an, Except.ok pe, Except.ok ana, Except.ok kf, Except.ok se,
    Except.ok vd, Except.ok rs =>
    Except.ok
      { agent_name := an
        perspective := pe
        analysis := ana
        confidence_score := clamp01 confidence
        key_findings := kf
        supporting_evidence := se
        verdict := vd
        reasoning := rs }
  | _, _, _, _, _, _, _ => Except.error "AgentAnalysis validation error"

/-- `create_error_analysis` (agent_helpers.py lines 47–58). Every field is
well-typed and the confidence literal is 0.0, so the constructor's
validation is vacuous here and the record is built directly. -/
def create_error_analysis (agent_name error_message : String) : AgentAnalysis :=
  { agent_name := agent_name
    perspective := "Error in " ++ agent_name ++ " analysis"
    analysis := "Analysis failed due to error: " ++ error_message
    confidence_score := 0
    key_findings := ["Agent " ++ agent_name ++ " encountered an error"]
    supporting_evidence := []
    verdict := Verdict.UNVERIFIABLE
    reasoning := "Error occurred during analysis: " ++ error_message }

/-- Body of `create_safe_agent_analysis` (agent_helpers.py lines 19-44)
for the dictionary case: each field is read with its documented default,
`float(...)` coerces the confidence, and any raised coercion or validation
error is caught (both `Except` outcomes handled) and converted to an
error analysis — so the function is total and never raises. -/
def safeFromDict (data : List (String × PyVal)) (agent_name : String) : AgentAnalysis :=
  match pyFloat (pyGet data "confidence_score" (PyVal.float 0)) with
  | Except.error e => create_error_analysis agent_name e
  | Except.ok c =>
    match mkAgentAnalysis
        (pyGet data "agent_name" (PyVal.str agent_name))
        (pyGet data "perspective" (PyVal.str (agent_name ++ " analysis")))
        (pyGet data "analysis" (PyVal.str "Analysis not provided"))
        c
        (pyGet data "key_findings" (PyVal.list []))
        (pyGet data "supporting_evidence" (PyVal.list []))
        (pyGet data "verdict" (PyVal.str "UNVERIFIABLE"))
        (pyGet data "reasoning" (PyVal.str "Reasoning not provided")) with
    | Except.ok a => a
    | Except.error e => create_error_analysis agent_name e

/-- Dispatch on the payload shape: the `isinstance(response_data, dict)`
guard of `create_safe_agent_analysis`. -/
def create_safe_agent_analysis (response_data : PyVal) (agent_name : String) :
    AgentAnalysis :=
  match response_data with
  | PyVal.dict data => safeFromDict data agent_name
  | _ => create_error_analysis agent_name "Invalid response format"

/-! ## Lemmas about the gathering loop -/

theorem agentResult_isSome_of_registered {M : MultiPerspectiveEvaluator} {stmt : Statement}
    {ctx : String} {n : String} {f : AgentFn} (hf : dlookup M.agents n = some f) :
    (agentResult M stmt ctx n).isSome := by
  unfold agentResult
  rw [hf]
  cases hfe : f stmt ctx <;> simp [hfe]

theorem agentResult_eq_of_registered {M : MultiPerspectiveEvaluator} {stmt : Statement}
    {ctx : String} {n : String} {f : AgentFn} (hf : dlookup M.agents n = some f) :
    agentResult M stmt ctx n =
      some (match f stmt ctx with
            | Except.ok p => p
            | Except.error e => errorRecord n e) := by
  unfold agentResult
  rw [hf]
  cases hfe : f stmt ctx <;> simp [hfe]

theorem gather_dlookup (M : MultiPerspectiveEvaluator) (stmt : Statement) (ctx : String) :
    ∀ (names : List String) (acc : PerspectivesDict) (n : String),
      dlookup (gatherPerspectives M stmt ctx names acc) n =
        if n ∈ names ∧ (agentResult M stmt ctx n).isSome
        then agentResult M stmt ctx n
        else dlookup acc n := by
  intro names
  induction names with
  | nil => simp [gatherPerspectives]
  | cons m rest ih =>
    intro acc n
    simp only [gatherPerspectives]
    rw [ih]
    by_cases hmem : n ∈ rest ∧ (agentResult M stmt ctx n).isSome
    · rw [if_pos hmem, if_pos ⟨List.mem_cons_of_mem m hmem.1, hmem.2⟩]
    · rw [if_neg hmem]
      by_cases heq : n = m
      · subst heq
        cases hres : agentResult M stmt ctx n with
        | none =>
          simp only [hres]
          rw [if_neg]
          intro hc
          simp at hc
        | some p =>
          simp only [hres]
          rw [dlookup_dinsert_self, if_pos ⟨List.mem_cons_self n rest, rfl⟩]
      · have hcond : ¬(n ∈ m :: rest ∧ (agentResult M stmt ctx n).isSome) := by
          rintro ⟨hm, hs⟩
          rcases List.mem_cons.mp hm with h' | h'
          · exact heq h'
          · exact hmem ⟨h', hs⟩
        rw [if_neg hcond]
        cases hres : agentResult M stmt ctx m with
        | none => rfl
        | some p => exact dlookup_dinsert_ne m n p (fun h => heq h.symm) acc

theorem gather_nodup_dkeys (M : MultiPerspectiveEvaluator) (stmt : Statement) (ctx : String) :
    ∀ (names : List String) (acc : PerspectivesDict),
      (dkeys acc).Nodup → (dkeys (gatherPerspectives M stmt ctx names acc)).Nodup := by
  intro names
  induction names with
  | nil => exact fun acc h => h
  | cons m rest ih =>
    intro acc hacc
    simp only [gatherPerspectives]
    cases hres : agentResult M stmt ctx m with
    | none => exact ih acc hacc
    | some p => exact ih _ (nodup_dkeys_dinsert m p acc hacc)

/-! ## Claims C1, C6, C7: orchestration and failure isolation -/

/-- C1: for every statement and every list `agents_to_use` of requested
evaluator names (names of registered evaluators), the perspectives mapping
built by `evaluate_statement` has exactly one entry per requested name —
its keys are duplicate-free and are exactly the requested names — even if
every evaluator's `evaluate` raises (the evaluators here are arbitrary,
including all-failing ones); and the report returned on success carries
exactly that mapping. -/
theorem claim_C1_total_coverage (M : MultiPerspectiveEvaluator) (stmt : Statement)
    (ctx : String) (names : List String)
    (hreg : ∀ n ∈ names, (dlookup M.agents n).isSome) :
    (dkeys (gatherPerspectives M stmt ctx names [])).Nodup ∧
    (∀ n, n ∈ dkeys (gatherPerspectives M stmt ctx names []) ↔ n ∈ names) ∧
    (∀ r, evaluate_statement M stmt ctx (some names) = Except.ok r →
      r.perspectives = gatherPerspectives M stmt ctx names []) := by
  refine ⟨gather_nodup_dkeys M stmt ctx names [] (by simp [dkeys]), fun n => ?_, fun r hr => ?_⟩
  · rw [← dlookup_isSome_iff_mem_dkeys, gather_dlookup]
    constructor
    · intro hs
      by_cases hc : n ∈ names ∧ (agentResult M stmt ctx n).isSome
      · exact hc.1
      · rw [if_neg hc] at hs
        simp [dlookup] at hs
    · intro hn
      obtain ⟨f, hf⟩ := Option.isSome_iff_exists.mp (hreg n hn)
      rw [if_pos ⟨hn, agentResult_isSome_of_registered hf⟩]
      exact agentResult_isSome_of_registered hf
  · unfold evaluate_statement at hr
    simp only [Option.getD_some] at hr
    cases hsyn : synthesize_perspectives M stmt (gatherPerspectives M stmt ctx names []) with
    | error e => rw [hsyn] at hr; cases hr
    | ok syn =>
      rw [hsyn] at hr
      cases hr
      rfl

/-- C1 witness: a registry where both evaluators raise; the gathered
mapping still has duplicate-free keys containing each requested name. -/
def stmtW : Statement := { text := "GM is alive", speaker := "Obama" }

/-- Evaluator that always raises (models a failing gateway call). -/
def agentFail1 : AgentFn := fun _ _ => Except.error "rate limit exceeded"

/-- Second always-raising evaluator with a distinct message. -/
def agentFail2 : AgentFn := fun _ _ => Except.error "timeout"

/-- Orchestrator whose two registered evaluators both raise but whose
synthesis gateway succeeds. -/
def Mfail : MultiPerspectiveEvaluator :=
  { agents := [("fact_checker", agentFail1), ("nerd", agentFail2)]
    synthesis_llm := fun _ => Except.ok "The statement is mostly true." }

theorem claim_C1_total_coverage_witness :
    (dkeys (gatherPerspectives Mfail stmtW "" ["fact_checker", "nerd"] [])).Nodup ∧
    ("fact_checker" ∈ dkeys (gatherPerspectives Mfail stmtW "" ["fact_checker", "nerd"] []) ↔
      "fact_checker" ∈ ["fact_checker", "nerd"]) :=
  ⟨(claim_C1_total_coverage Mfail stmtW "" ["fact_checker", "nerd"] (by decide)).1,
   (claim_C1_total_coverage Mfail stmtW "" ["fact_checker", "nerd"] (by decide)).2.1 "fact_checker"⟩

/-- C6: when a selected, registered evaluator's `evaluate` raises with
message `msg`, the mapping stores under that name exactly the error
envelope `{agent = name, error = msg, analysis = "Error during analysis"}`;
every other selected registered evaluator still runs (its entry is exactly
the outcome of its own `evaluate`); and the only error
`evaluate_statement` can propagate is the synthesis gateway's, never the
evaluator's. -/
theorem claim_C6_evaluator_failure_isolated (M : MultiPerspectiveEvaluator) (stmt : Statement)
    (ctx : String) (names : List String) (name msg : String) (f : AgentFn)
    (hmem : name ∈ names) (hf : dlookup M.agents name = some f)
    (hfail : f stmt ctx = Except.error msg) :
    dlookup (gatherPerspectives M stmt ctx names []) name = some (errorRecord name msg) ∧
    (∀ n g, n ∈ names → dlookup M.agents n = some g →
      dlookup (gatherPerspectives M stmt ctx names []) n =
        some (match g stmt ctx with
              | Except.ok p => p
              | Except.error e => errorRecord n e)) ∧
    (∀ e, evaluate_statement M stmt ctx (some names) = Except.error e →
      M.synthesis_llm (synthesisPrompt stmt (gatherPerspectives M stmt ctx names [])) =
        Except.error e) := by
  have hrun : ∀ n g, n ∈ names → dlookup M.agents n = some g →
      dlookup (gatherPerspectives M stmt ctx names []) n =
        some (match g stmt ctx with
              | Except.ok p => p
              | Except.error e => errorRecord n e) := by
    intro n g hn hg
    rw [gather_dlookup, if_pos ⟨hn, agentResult_isSome_of_registered hg⟩]
    exact agentResult_eq_of_registered hg
  refine ⟨?_, hrun, fun e he => ?_⟩
  · have h := hrun name f hmem hf
    rw [hfail] at h
    exact h
  · unfold evaluate_statement at he
    simp only [Option.getD_some] at he
    unfold synthesize_perspectives at he
    cases hllm : M.synthesis_llm (synthesisPrompt stmt (gatherPerspectives M stmt ctx names [])) with
    | error e' => rw [hllm] at he; cases he; rfl
    | ok content => rw [hllm] at he; cases he

theorem claim_C6_evaluator_failure_isolated_witness :
    dlookup (gatherPerspectives Mfail stmtW "" ["fact_checker", "nerd"] []) "fact_checker" =
      some (errorRecord "fact_checker" "rate limit exceeded") :=
  (claim_C6_evaluator_failure_isolated Mfail stmtW "" ["fact_checker", "nerd"]
    "fact_checker" "rate limit exceeded" agentFail1 (by decide) rfl rfl).1

/-- C7: if the language-model gateway call made during synthesis raises,
the error is caught neither by the synthesizer nor by the orchestrator:
`evaluate_statement` returns exactly that error and no partial report. -/
theorem claim_C7_synthesis_failure_propagates (M : MultiPerspectiveEvaluator) (stmt : Statement)
    (ctx : String) (agents_to_use : Option (List String)) (e : String)
    (h : M.synthesis_llm
        (synthesisPrompt stmt
          (gatherPerspectives M stmt ctx (agents_to_use.getD (dkeys M.agents)) [])) =
      Except.error e) :
    evaluate_statement M stmt ctx agents_to_use = Except.error e := by
  unfold evaluate_statement synthesize_perspectives
  simp only [h]

/-- Orchestrator whose synthesis gateway raises. -/
def MllmDown : MultiPerspectiveEvaluator :=
  { agents := [("fact_checker", agentFail1)]
    synthesis_llm := fun _ => Except.error "gateway unavailable" }

theorem claim_C7_synthesis_failure_propagates_witness :
    evaluate_statement MllmDown stmtW "" Option.none = Except.error "gateway unavailable" :=
  claim_C7_synthesis_failure_propagates MllmDown stmtW "" Option.none "gateway unavailable" rfl

/-! ## Lemmas for the consensus and confidence arithmetic -/

theorem varianceOf_nonneg (l : List Int) : 0 ≤ varianceOf l := by
  unfold varianceOf
  apply div_nonneg
  · apply List.sum_nonneg
    intro x hx
    obtain ⟨s, _, rfl⟩ := List.mem_map.mp hx
    positivity
  · exact_mod_cast Nat.zero_le _

theorem consensus_mem (ps : PerspectivesDict) :
    0 ≤ calculate_consensus ps ∧ calculate_consensus ps ≤ 1 := by
  unfold calculate_consensus
  split_ifs with h1 h2
  · norm_num
  · norm_num
  · have hv : 0 ≤ varianceOf (sentimentsOf ps) := varianceOf_nonneg _
    have hmin0 : 0 ≤ min (varianceOf (sentimentsOf ps) / 4) 1 :=
      le_min (by positivity) (by norm_num)
    have hmin1 : min (varianceOf (sentimentsOf ps) / 4) 1 ≤ 1 := min_le_right _ _
    exact ⟨round2_nonneg (by linarith), round2_le_one (by linarith)⟩

theorem mem_confidencesOf {ps : PerspectivesDict} {x : ℚ} (hx : x ∈ confidencesOf ps) :
    ∃ p ∈ ps.map Prod.snd, p.error = none ∧ x = p.confidence.getD (1/2) := by
  obtain ⟨p, hp, hpx⟩ := List.mem_filterMap.mp hx
  by_cases he : p.error = none
  · rw [if_pos he] at hpx
    exact ⟨p, hp, he, (Option.some.inj hpx).symm⟩
  · rw [if_neg he] at hpx
    cases hpx

/-! ## Claims C3, C4, C5: consensus and synthesis confidence -/

/-- Two error-only entries: the mapping the corrected C3/C4 behaviour is
exhibited on (0 usable perspectives but 2 total entries). -/
def psEE : PerspectivesDict :=
  [("a", errorRecord "a" "agent one failed"), ("b", errorRecord "b" "agent two failed")]

/-- Number of usable (non-error) perspectives, as claims C3/C4 count them. -/
def usableCount (ps : PerspectivesDict) : Nat :=
  ((ps.map Prod.snd).filter fun p => p.error.isNone).length

/-- C3 counterexample: `psEE` has 0 usable perspectives — fewer than 2 — yet
`_calculate_consensus` returns 0.5, not the 1.0 the claim's first rule
demands: the 1.0 early-return gates on the total entry count, error
entries included. -/
theorem claim_C3_counterexample :
    usableCount psEE < 2 ∧ calculate_consensus psEE = 1/2 ∧ (1/2 : ℚ) ≠ 1 :=
  ⟨by decide, rfl, by norm_num⟩

/-- C3 (amended): the 1.0 early-return triggers exactly when the mapping has
fewer than 2 total entries (error entries included); with at least 2
entries and no usable sentiments the result is 0.5; otherwise it is
`round2 (1 − min(variance/4, 1))`; and the result always lies in [0, 1]. -/
theorem claim_C3_consensus_corrected (ps : PerspectivesDict) :
    (ps.length < 2 → calculate_consensus ps = 1) ∧
    (2 ≤ ps.length → sentimentsOf ps = [] → calculate_consensus ps = 1/2) ∧
    (2 ≤ ps.length → sentimentsOf ps ≠ [] →
      calculate_consensus ps = round2 (1 - min (varianceOf (sentimentsOf ps) / 4) 1)) ∧
    (0 ≤ calculate_consensus ps ∧ calculate_consensus ps ≤ 1) := by
  refine ⟨fun h => ?_, fun h hs => ?_, fun h hs => ?_, consensus_mem ps⟩
  · unfold calculate_consensus
    rw [if_pos h]
  · unfold calculate_consensus
    rw [if_neg (by omega), if_pos (by rw [hs]; rfl)]
  · unfold calculate_consensus
    rw [if_neg (by omega), if_neg (by simpa [List.isEmpty_iff] using hs)]

/-- Single-entry mapping (one error record), for the C3 witness. -/
def psSingle : PerspectivesDict := [("a", errorRecord "a" "agent one failed")]

theorem claim_C3_consensus_corrected_witness :
    calculate_consensus psSingle = 1 ∧ calculate_consensus psEE = 1/2 ∧
    0 ≤ calculate_consensus psEE :=
  ⟨(claim_C3_consensus_corrected psSingle).1 (by decide),
   (claim_C3_consensus_corrected psEE).2.1 (by decide) rfl,
   (claim_C3_consensus_corrected psEE).2.2.2.1⟩

/-- Synthesis confidence as claim C4 states it: the average confidence
(defaulting to 0.5 when there are no non-error perspectives) is always
multiplied by `(0.5 + 0.5 × consensus)` and rounded. Stated from the
claim's words, to be compared with `calculate_synthesis_confidence`. -/
def synthesisConfidenceClaimed (ps : PerspectivesDict) : ℚ :=
  weightedConfidence
    (if (confidencesOf ps).isEmpty then 1/2
     else (confidencesOf ps).sum / (confidencesOf ps).length)
    (calculate_consensus ps)

/-- C4 counterexample: on `psEE` (no non-error perspectives, consensus 0.5)
the source returns 0.5 directly, while the claim's formula yields
`round2(0.5 × (0.5 + 0.5 × 0.5)) = round2(0.375) = 0.38`. -/
theorem claim_C4_counterexample :
    calculate_synthesis_confidence psEE = 1/2 ∧
    synthesisConfidenceClaimed psEE = 19/50 ∧
    calculate_synthesis_confidence psEE ≠ synthesisConfidenceClaimed psEE := by
  have h1 : calculate_synthesis_confidence psEE = 1/2 := rfl
  have hcons : calculate_consensus psEE = 1/2 := rfl
  have hconf : (confidencesOf psEE).isEmpty = true := rfl
  have h2 : synthesisConfidenceClaimed psEE = 19/50 := by
    unfold synthesisConfidenceClaimed weightedConfidence
    rw [if_pos hconf, hcons]
    have harg : (1/2 : ℚ) * (1/2 + 1/2 * (1/2)) = 3/8 := by norm_num
    rw [harg, round2_eq_of_bounds (q := 3/8) (z := 38) (by norm_num) (by norm_num)]
    norm_num
  exact ⟨h1, h2, by rw [h1, h2]; norm_num⟩

/-- C4 (amended): with no non-error perspectives the function returns 0.5
directly, skipping the consensus weighting; otherwise it returns the
average of their confidence values multiplied by
`(0.5 + 0.5 × consensus)`, rounded to 2 decimals. -/
theorem claim_C4_synthesis_confidence_corrected (ps : PerspectivesDict) :
    (confidencesOf ps = [] → calculate_synthesis_confidence ps = 1/2) ∧
    (confidencesOf ps ≠ [] →
      calculate_synthesis_confidence ps =
        round2 ((confidencesOf ps).sum / (confidencesOf ps).length *
          (1/2 + 1/2 * calculate_consensus ps))) := by
  constructor
  · intro h
    unfold calculate_synthesis_confidence
    rw [if_pos (by rw [h]; rfl)]
  · intro h
    unfold calculate_synthesis_confidence weightedConfidence
    rw [if_neg (by simpa [List.isEmpty_iff] using h)]

/-- Two agreeing-in-confidence, disagreeing-in-sentiment perspectives
(the spec's §8 worked scenario: confidences 0.8, analyses "accurate" vs
"false"). -/
def perspAccurate : Perspective :=
  { agent := some "fact_checker", error := none,
    analysis := some "The claim is accurate", confidence := some (4/5) }

/-- Perspective whose analysis reads negative. -/
def perspNegative : Perspective :=
  { agent := some "nerd", error := none,
    analysis := some "The claim is wrong and disputed", confidence := some (4/5) }

/-- The spec's worked scenario mapping. -/
def psGood : PerspectivesDict := [("fact_checker", perspAccurate), ("nerd", perspNegative)]

theorem claim_C4_synthesis_confidence_corrected_witness :
    calculate_synthesis_confidence psEE = 1/2 ∧
    calculate_synthesis_confidence psGood =
      round2 ((confidencesOf psGood).sum / (confidencesOf psGood).length *
        (1/2 + 1/2 * calculate_consensus psGood)) :=
  ⟨(claim_C4_synthesis_confidence_corrected psEE).1 rfl,
   (claim_C4_synthesis_confidence_corrected psGood).2
     (by simp [show confidencesOf psGood = [4/5, 4/5] from rfl])⟩

/-- C5: the synthesis confidence lies in [0, 1] for every perspectives
mapping whose (non-error) confidence values satisfy the AgentAnalysis
invariant of being in [0, 1]; and for a fixed average agent confidence the
consensus weighting is monotonically non-decreasing in the consensus
value. -/
theorem claim_C5_confidence_range_monotone (ps : PerspectivesDict)
    (hconf : ∀ p ∈ ps.map Prod.snd, p.error = none →
      0 ≤ p.confidence.getD (1/2) ∧ p.confidence.getD (1/2) ≤ 1) :
    (0 ≤ calculate_synthesis_confidence ps ∧ calculate_synthesis_confidence ps ≤ 1) ∧
    (∀ avg c₁ c₂, 0 ≤ avg → c₁ ≤ c₂ →
      weightedConfidence avg c₁ ≤ weightedConfidence avg c₂) := by
  constructor
  · unfold calculate_synthesis_confidence
    split_ifs with h
    · norm_num
    · have hne : confidencesOf ps ≠ [] := by simpa [List.isEmpty_iff] using h
      have hmem : ∀ x ∈ confidencesOf ps, 0 ≤ x ∧ x ≤ 1 := by
        intro x hx
        obtain ⟨p, hp, he, rfl⟩ := mem_confidencesOf hx
        exact hconf p hp he
      have hlen : 0 < ((confidencesOf ps).length : ℚ) := by
        exact_mod_cast List.length_pos.mpr hne
      have havg0 : 0 ≤ (confidencesOf ps).sum / (confidencesOf ps).length :=
        div_nonneg (List.sum_nonneg fun x hx => (hmem x hx).1) (le_of_lt hlen)
      have havg1 : (confidencesOf ps).sum / (confidencesOf ps).length ≤ 1 := by
        rw [div_le_one hlen]
        have hs := List.sum_le_card_nsmul (confidencesOf ps) 1 fun x hx => (hmem x hx).2
        simpa using hs
      have hc0 : 0 ≤ calculate_consensus ps := (consensus_mem ps).1
      have hc1 : calculate_consensus ps ≤ 1 := (consensus_mem ps).2
      unfold weightedConfidence
      constructor
      · exact round2_nonneg (mul_nonneg havg0 (by linarith))
      · refine round2_le_one (mul_le_one₀ havg1 (by linarith) (by linarith))
  · intro avg c₁ c₂ havg hc
    unfold weightedConfidence
    exact round2_mono (mul_le_mul_of_nonneg_left (by linarith) havg)

theorem claim_C5_confidence_range_monotone_witness :
    (0 ≤ calculate_synthesis_confidence psGood ∧
      calculate_synthesis_confidence psGood ≤ 1) ∧
    weightedConfidence (4/5) (1/2) ≤ weightedConfidence (4/5) (3/4) :=
  ⟨(claim_C5_confidence_range_monotone psGood
      (by
        intro p hp he
        simp only [psGood, List.map_cons, List.map_nil, List.mem_cons,
          List.not_mem_nil, or_false] at hp
        rcases hp with h | h
        · subst h; norm_num [perspAccurate]
        · subst h; norm_num [perspNegative])).1,
   (claim_C5_confidence_range_monotone psGood
      (by
        intro p hp he
        simp only [psGood, List.map_cons, List.map_nil, List.mem_cons,
          List.not_mem_nil, or_false] at hp
        rcases hp with h | h
        · subst h; norm_num [perspAccurate]
        · subst h; norm_num [perspNegative])).2 (4/5) (1/2) (3/4) (by norm_num) (by norm_num)⟩

/-! ## Claims C8, C9, C10: verdict classifier, action items, sentiment -/

/-- C8: `_determine_verdict` implements exactly the case-insensitive
priority-ordered trigger-phrase table (mostly true/largely accurate →
TRUTH, then selective/cherry-pick → SELECTIVE_TRUTH, then false/incorrect
→ LIE, else UNVERIFIABLE), first matching rule winning; in particular a
text containing both "largely accurate" and "selective" resolves to
TRUTH. -/
theorem claim_C8_verdict_priority :
    (∀ s, determine_verdict s = verdictByRules s) ∧
    determine_verdict "largely accurate but some selective framing" = StatementType.TRUTH := by
  constructor
  · intro s
    simp [determine_verdict, verdictByRules, firstMatchingRule, verdictRules]
  · decide

/-- C9: the action-item list always has at most 3 entries and no
duplicates, for every statement and perspectives mapping. -/
theorem claim_C9_action_items_bounded (statement : Statement) (ps : PerspectivesDict) :
    (generate_action_items statement ps).length ≤ 3 ∧
    (generate_action_items statement ps).Nodup := by
  unfold generate_action_items
  exact ⟨by simpa using List.length_take_le 3 _,
    List.Nodup.sublist (List.take_sublist 3 _) (List.nodup_dedup _)⟩

/-- C10: whenever a perspective's analysis text contains a positive trigger
("true" or "accurate", case-insensitively) — even inside a negated
phrasing like "not true" — the sentiment used by `_calculate_consensus`
is +1 regardless of any negative trigger ("false"/"incorrect") also being
present, because the positive check runs first. -/
theorem claim_C10_positive_check_first (s : String)
    (hpos : strContains (lowerStr s) "true" = true ∨
      strContains (lowerStr s) "accurate" = true)
    (hneg : strContains (lowerStr s) "false" = true ∨
      strContains (lowerStr s) "incorrect" = true) :
    sentimentOf s = 1 := by
  unfold sentimentOf
  rcases hpos with h | h <;> simp [h]

theorem claim_C10_positive_check_first_witness :
    sentimentOf "The figures are not true; in fact the claim is false" = 1 :=
  claim_C10_positive_check_first _ (Or.inl (by decide)) (Or.inl (by decide))

/-! ## Claim C2: safe analysis construction -/

theorem clamp01_mem (q : ℚ) : 0 ≤ clamp01 q ∧ clamp01 q ≤ 1 :=
  ⟨le_max_left 0 _, max_le (by norm_num) (min_le_left 1 q)⟩

theorem mkAgentAnalysis_confidence {a b c : PyVal} {q : ℚ} {d e f g : PyVal}
    {r : AgentAnalysis} (h : mkAgentAnalysis a b c q d e f g = Except.ok r) :
    r.confidence_score = clamp01 q := by
  unfold mkAgentAnalysis at h
  split at h
  all_goals cases h
  all_goals rfl

theorem safeFromDict_confidence_mem (data : List (String × PyVal)) (name : String) :
    0 ≤ (safeFromDict data name).confidence_score ∧
    (safeFromDict data name).confidence_score ≤ 1 := by
  unfold safeFromDict
  split
  · exact ⟨le_refl 0, zero_le_one⟩
  · split
    · rename_i hmk
      rw [mkAgentAnalysis_confidence hmk]
      exact clamp01_mem _
    · exact ⟨le_refl 0, zero_le_one⟩

/-- C2: `create_safe_agent_analysis` is total (it is a plain function: the
source's try/except is modelled by handling both `Except` outcomes, so no
input makes it raise), and for every payload — `None`, any non-mapping,
any mapping with missing or malformed fields — the result satisfies the
AgentAnalysis invariants: confidence score in [0, 1] and verdict in the
fixed enumeration. -/
theorem claim_C2_safe_analysis_invariants (v : PyVal) (name : String) :
    0 ≤ (create_safe_agent_analysis v name).confidence_score ∧
    (create_safe_agent_analysis v name).confidence_score ≤ 1 ∧
    (create_safe_agent_analysis v name).verdict ∈
      [Verdict.TRUE, Verdict.MISLEADING, Verdict.FALSE, Verdict.UNVERIFIABLE] := by
  have hv : ∀ w : Verdict,
      w ∈ [Verdict.TRUE, Verdict.MISLEADING, Verdict.FALSE, Verdict.UNVERIFIABLE] := by
    intro w
    cases w <;> simp
  have hmem : 0 ≤ (create_safe_agent_analysis v name).confidence_score ∧
      (create_safe_agent_analysis v name).confidence_score ≤ 1 := by
    cases v with
    | dict data => exact safeFromDict_confidence_mem data name
    | none => exact ⟨le_refl 0, zero_le_one⟩
    | bool b => exact ⟨le_refl 0, zero_le_one⟩
    | int n => exact ⟨le_refl 0, zero_le_one⟩
    | float q => exact ⟨le_refl 0, zero_le_one⟩
    | str s => exact ⟨le_refl 0, zero_le_one⟩
    | list xs => exact ⟨le_refl 0, zero_le_one⟩
  exact ⟨hmem.1, hmem.2, hv _⟩
